import Mathlib

/-!
Verification of the load-testing engine of the apitesterbe backend
(`PerformanceTestService` and its controller), against its natural-language
specification.  The TypeScript service is embedded shallowly:

* `ApiEndpoint` mirrors `IApiEndpoint` (the fields read by the engine).
* `buildRequestConfig` / `axiosSend` / `executeEndpointRequest` mirror the
  private `executeEndpointRequest` method, which builds an axios request
  config (never setting `validateStatus`) and calls `axios(config)`.
* `loopIter` / `workerLoop` / `executeLoadTest` mirror the private
  `executeLoadTest` method: the worker loop is driven by an explicit clock
  (`Date.now()` becomes a `Nat` time threaded through the loop) and by a
  schedule assigning each worker the sequence of transport outcomes and
  elapsed times its requests would observe.
* `percentile` mirrors the inner `percentile` helper; JavaScript numbers are
  modelled by exact arithmetic (`Nat` for latencies and counts, `ℚ` for the
  derived averages and rates).
* `runPerformanceTest` mirrors the public coordinator method; persistence is
  modelled by returning the list of saved record snapshots.
* `getTestHistory` mirrors the history query.
-/

namespace ApiTesterBE

/-- The fields of `IApiEndpoint` that the performance engine reads.  Optional
TypeScript fields become `Option`; the header/query-param records become
association lists. -/
structure ApiEndpoint where
  id : String
  name : String
  method : String
  url : String
  headers : Option (List (String × String)) := none
  body : Option String := none
  queryParams : Option (List (String × String)) := none

/-- The axios request config assembled by `executeEndpointRequest`.  The field
`validateStatus` is part of axios's config surface; the service never sets it,
so it stays `none` and axios falls back to its default. -/
structure AxiosConfig where
  method : String
  url : String
  headers : List (String × String)
  params : Option (List (String × String)) := none
  data : Option String := none
  validateStatus : Option (Nat → Bool) := none

/-- What the network returns for one request attempt: an HTTP response with a
status code, or a transport-level failure (connection refused, DNS error, ...). -/
inductive TransportResult where
  | response (status : Nat)
  | failure
deriving DecidableEq

/-- Axios's documented default `validateStatus`: accept exactly the 2xx range
(`status >= 200 && status < 300`). -/
def defaultValidateStatus (status : Nat) : Bool :=
  decide (200 ≤ status) && decide (status < 300)

/-- `executeEndpointRequest`, construction part: method and url as given,
headers attached (empty object when absent), `params` set only when
`queryParams` is present, `data` set only when a body exists and the method is
POST, PUT or PATCH.  `validateStatus` is left unset. -/
def buildRequestConfig (e : ApiEndpoint) : AxiosConfig :=
  { method := e.method
    url := e.url
    headers := e.headers.getD []
    params := e.queryParams
    data :=
      if e.body.isSome &&
          (e.method == "POST" || e.method == "PUT" || e.method == "PATCH") then
        e.body
      else none
    validateStatus := none }

/-- Modelled from the axios library contract the code relies on: `axios(config)`
resolves with the response when the transport delivers a response whose status
passes `config.validateStatus` (its default accepts only 2xx), and rejects —
i.e. raises at the `await` — on a transport failure or on a response whose
status fails `validateStatus`. -/
def axiosSend (cfg : AxiosConfig) (t : TransportResult) : Except Unit Nat :=
  match t with
  | .failure => .error ()
  | .response s =>
      if (cfg.validateStatus.getD defaultValidateStatus) s then .ok s
      else .error ()

/-- The private `executeEndpointRequest` method applied to one transport
outcome: build the config (without `validateStatus`) and send it through axios. -/
def executeEndpointRequest (e : ApiEndpoint) (t : TransportResult) :
    Except Unit Nat :=
  axiosSend (buildRequestConfig e) t

/-- One loop iteration of a worker, as the environment determines it: the
transport outcome of the request and the elapsed wall-clock milliseconds the
request took (`Date.now() - requestStart`). -/
structure Iteration where
  transport : TransportResult
  elapsedMs : Nat
deriving DecidableEq

/-- The shared mutable accumulators of `executeLoadTest`: `responseTimes`,
`totalRequests`, `successfulRequests`, `failedRequests`. -/
structure LoopState where
  responseTimes : List Nat
  totalRequests : Nat
  successfulRequests : Nat
  failedRequests : Nat
deriving DecidableEq

/-- The accumulators before any worker runs. -/
def initialLoopState : LoopState := ⟨[], 0, 0, 0⟩

/-- The body of the worker's `while` loop: try the request; on success push the
response time and bump `totalRequests` and `successfulRequests`; on a raised
error bump `totalRequests` and `failedRequests`. -/
def loopIter (e : ApiEndpoint) (it : Iteration) (st : LoopState) : LoopState :=
  match executeEndpointRequest e it.transport with
  | .ok _ =>
      { st with
        responseTimes := st.responseTimes ++ [it.elapsedMs]
        totalRequests := st.totalRequests + 1
        successfulRequests := st.successfulRequests + 1 }
  | .error _ =>
      { st with
        totalRequests := st.totalRequests + 1
        failedRequests := st.failedRequests + 1 }

/-- The worker's `while (Date.now() < endTime)` loop.  The first `Nat` is the
current time; each iteration consumes the next entry of the worker's schedule,
advances the clock by the request's elapsed time plus the fixed 100 ms pacing
sleep, and updates the shared state.  The loop also stops when the schedule is
exhausted (the environment offers no further request outcome). -/
def workerLoop (e : ApiEndpoint) (endTime : Nat) :
    Nat → List Iteration → LoopState → LoopState
  | _, [], st => st
  | t, it :: rest, st =>
      if t < endTime then
        workerLoop e endTime (t + it.elapsedMs + 100) rest (loopIter e it st)
      else st

/-- The `config` argument of the engine (`concurrentUsers`, `duration` in
seconds, `rampUpTime` in seconds). -/
structure TestConfig where
  concurrentUsers : Nat
  duration : Nat
  rampUpTime : Nat
deriving DecidableEq

/-- The `percentiles` sub-object of the results. -/
structure Percentiles where
  p50 : Nat
  p95 : Nat
  p99 : Nat
deriving DecidableEq

/-- The `results` object produced by `executeLoadTest`.  Latencies and counts
are `Nat`; the derived averages and rates are exact rationals. -/
structure TestResults where
  totalRequests : Nat
  successfulRequests : Nat
  failedRequests : Nat
  averageResponseTime : ℚ
  minResponseTime : Nat
  maxResponseTime : Nat
  requestsPerSecond : ℚ
  errorRate : ℚ
  percentiles : Percentiles
deriving DecidableEq

/-- The inner `percentile` helper: `0` for an empty array, otherwise
`arr[Math.max(0, Math.ceil((p / 100) * arr.length) - 1)]`.  The ceiling of the
exact rational `p·n/100` is written `(p*n + 99) / 100` in natural division;
for the three call sites `p ∈ {50, 95, 99}` this coincides with the
floating-point evaluation in the source. -/
def percentile (arr : List Nat) (p : Nat) : Nat :=
  if arr.length = 0 then 0
  else arr.getD (max 0 (((p * arr.length + 99) / 100 : Nat) - 1 : Int)).toNat 0

/-- The accumulator state after all workers of `executeLoadTest` have run.
`startTime` is the `Date.now()` at entry; `schedule` gives, for each worker
index, the sequence of request outcomes the environment would deliver to that
worker.  All `config.concurrentUsers` workers start at `startTime` and run
against the deadline `startTime + duration*1000`; their updates to the shared
accumulators are merged. -/
def loadTestState (e : ApiEndpoint) (cfg : TestConfig) (startTime : Nat)
    (schedule : List (List Iteration)) : LoopState :=
  (((List.range cfg.concurrentUsers).map fun i => schedule.getD i []).foldl
    (fun s w => workerLoop e (startTime + cfg.duration * 1000) startTime w s)
    initialLoopState)

/-- `const sortedResponseTimes = responseTimes.sort((a, b) => a - b)`. -/
def sortedTimes (st : LoopState) : List Nat :=
  st.responseTimes.mergeSort fun a b => decide (a ≤ b)

/-- The "Calculate statistics" block of `executeLoadTest`, as a function of the
accumulated state: average (`|| 0` guarding the empty case), min and max from
the sorted array (`|| 0` when absent), throughput against the configured
duration, error rate (`|| 0` guarding `0/0`), and the three percentiles over
the sorted response times. -/
def computeResults (cfg : TestConfig) (st : LoopState) : TestResults :=
  { totalRequests := st.totalRequests
    successfulRequests := st.successfulRequests
    failedRequests := st.failedRequests
    averageResponseTime :=
      if st.responseTimes.length = 0 then 0
      else (st.responseTimes.sum : ℚ) / (st.responseTimes.length : ℚ)
    minResponseTime := (sortedTimes st).headD 0
    maxResponseTime := (sortedTimes st).getLastD 0
    requestsPerSecond := (st.totalRequests : ℚ) / (cfg.duration : ℚ)
    errorRate :=
      if st.totalRequests = 0 then 0
      else (st.failedRequests : ℚ) / (st.totalRequests : ℚ) * 100
    percentiles :=
      { p50 := percentile (sortedTimes st) 50
        p95 := percentile (sortedTimes st) 95
        p99 := percentile (sortedTimes st) 99 } }

/-- The private `executeLoadTest` method: run the worker pool, then reduce the
accumulated outcomes to statistics. -/
def executeLoadTest (e : ApiEndpoint) (cfg : TestConfig) (startTime : Nat)
    (schedule : List (List Iteration)) : TestResults :=
  computeResults cfg (loadTestState e cfg startTime schedule)

/-- The status enumeration of a performance test record. -/
inductive TestStatus where
  | running
  | completed
  | failed
deriving DecidableEq

/-- A persisted `PerformanceTest` document: project and endpoint references,
the generated test name, the configuration used, the lifecycle status, the
start time, and — once terminal — the completion time and (for completed runs)
the results. -/
structure TestRecord where
  projectId : String
  endpointId : String
  testName : String
  config : TestConfig
  status : TestStatus
  startedAt : Nat
  completedAt : Option Nat := none
  results : Option TestResults := none
deriving DecidableEq

/-- The public `runPerformanceTest` coordinator.  `startedAt` and `finishedAt`
are the two `new Date()` observations; `loadOutcome` is what `await
this.executeLoadTest(...)` produces — a results object on normal return, or
the raised error.  The first component of the result is the sequence of record
snapshots passed to `save()`, in order; the second is what the method returns
to (or raises at) its caller. -/
def runPerformanceTest (e : ApiEndpoint) (projectId : String) (cfg : TestConfig)
    (startedAt finishedAt : Nat) (loadOutcome : Except String TestResults) :
    List TestRecord × Except String TestRecord :=
  let testRecord : TestRecord :=
    { projectId := projectId
      endpointId := e.id
      testName := "Load Test: " ++ e.method ++ " " ++ e.name
      config := cfg
      status := .running
      startedAt := startedAt }
  match loadOutcome with
  | .ok results =>
      let final : TestRecord :=
        { testRecord with
          results := some results
          status := .completed
          completedAt := some finishedAt }
      ([testRecord, final], .ok final)
  | .error err =>
      let final : TestRecord :=
        { testRecord with
          status := .failed
          completedAt := some finishedAt }
      ([testRecord, final], .error err)

/-- Descending comparison on `startedAt`, the sort key of the history query
(`.sort({ startedAt: -1 })`). -/
def startedAtDesc (a b : TestRecord) : Bool := decide (b.startedAt ≤ a.startedAt)

/-- `getTestHistory`: the mongoose query
`find({ projectId }).sort({ startedAt: -1 }).limit(50)` evaluated over a store
of persisted records. -/
def getTestHistory (store : List TestRecord) (projectId : String) :
    List TestRecord :=
  (((store.filter fun r => r.projectId == projectId).mergeSort
      startedAtDesc).take 50)

/-- JavaScript `v || d` on an optional numeric field: a missing field and the
number `0` are falsy and yield the default; any other number is returned. -/
def jsOrNat (v : Option Nat) (d : Nat) : Nat :=
  match v with
  | none => d
  | some n => if n = 0 then d else n

/-- The configuration object the controller's `runPerformanceTest` handler
builds from the request body:
`{ concurrentUsers: concurrentUsers || 10, duration: duration || 60,
rampUpTime: rampUpTime || 0 }`. -/
def controllerTestConfig (concurrentUsers duration rampUpTime : Option Nat) :
    TestConfig :=
  { concurrentUsers := jsOrNat concurrentUsers 10
    duration := jsOrNat duration 60
    rampUpTime := jsOrNat rampUpTime 0 }

/-- A sample endpoint used for concrete witnesses. -/
def sampleEndpoint : ApiEndpoint :=
  { id := "ep1"
    name := "Ping"
    method := "GET"
    url := "http://example.com/ping" }

/-- The invariant maintained by the worker loop: the total count splits into
successes and failures, and exactly the successful iterations contributed a
response time. -/
def StateInv (st : LoopState) : Prop :=
  st.totalRequests = st.successfulRequests + st.failedRequests ∧
  st.responseTimes.length = st.successfulRequests

theorem loopIter_inv (e : ApiEndpoint) (it : Iteration) (st : LoopState)
    (h : StateInv st) : StateInv (loopIter e it st) := by
  unfold loopIter
  rcases hr : executeEndpointRequest e it.transport with _ | _ <;>
    simp only [StateInv, List.length_append, List.length_cons,
      List.length_nil] at h ⊢ <;> omega

theorem workerLoop_inv (e : ApiEndpoint) (endTime : Nat) (its : List Iteration) :
    ∀ t st, StateInv st → StateInv (workerLoop e endTime t its st) := by
  induction its with
  | nil =>
      intro t st h
      simpa only [workerLoop] using h
  | cons it rest ih =>
      intro t st h
      simp only [workerLoop]
      split
      · exact ih _ _ (loopIter_inv e it st h)
      · exact h

theorem foldl_workerLoop_inv (e : ApiEndpoint) (endTime startTime : Nat)
    (ws : List (List Iteration)) (st : LoopState) (h : StateInv st) :
    StateInv (ws.foldl (fun s w => workerLoop e endTime startTime w s) st) := by
  induction ws generalizing st with
  | nil => exact h
  | cons w rest ih =>
      exact ih _ (workerLoop_inv e endTime w startTime st h)

theorem loadTestState_inv (e : ApiEndpoint) (cfg : TestConfig) (startTime : Nat)
    (schedule : List (List Iteration)) :
    StateInv (loadTestState e cfg startTime schedule) := by
  unfold loadTestState
  exact foldl_workerLoop_inv e _ _ _ _ ⟨rfl, rfl⟩

/-- Claim C3: for every completed load test, the returned results satisfy
`totalRequests == successfulRequests + failedRequests` — every worker
iteration increments `totalRequests` together with exactly one of
`successfulRequests` or `failedRequests`. -/
theorem executeLoadTest_total_split (e : ApiEndpoint) (cfg : TestConfig)
    (startTime : Nat) (schedule : List (List Iteration)) :
    (executeLoadTest e cfg startTime schedule).totalRequests =
      (executeLoadTest e cfg startTime schedule).successfulRequests +
        (executeLoadTest e cfg startTime schedule).failedRequests :=
  (loadTestState_inv e cfg startTime schedule).1

/-- The percentile selection as the specification words it: index
`ceil(p/100 × len(L)) − 1`, clamped to the interval `[0, len(L)−1]`, looked up
in `L`; `0` when `L` is empty. -/
def specPercentile (L : List Nat) (p : Nat) : Nat :=
  if L.length = 0 then 0
  else
    L.getD
      (min (max (((p * L.length + 99) / 100 : Nat) - 1 : Int) 0)
        ((L.length : Int) - 1)).toNat 0

theorem percentile_eq_specPercentile (L : List Nat) (p : Nat) (hp1 : 1 ≤ p)
    (hp2 : p ≤ 100) : percentile L p = specPercentile L p := by
  unfold percentile specPercentile
  by_cases hL : L.length = 0
  · simp [hL]
  · simp only [if_neg hL]
    have hq_le : (p * L.length + 99) / 100 ≤ L.length := by
      have h1 : p * L.length + 99 ≤ 99 + 100 * L.length := by
        have := Nat.mul_le_mul_right L.length hp2
        omega
      have h2 : (99 + 100 * L.length) / 100 = L.length := by
        rw [Nat.add_mul_div_left 99 L.length (by norm_num : 0 < 100)]
        norm_num
      calc (p * L.length + 99) / 100
          ≤ (99 + 100 * L.length) / 100 := Nat.div_le_div_right h1
        _ = L.length := h2
    have hq_ge : 1 ≤ (p * L.length + 99) / 100 := by
      rw [Nat.le_div_iff_mul_le (by norm_num : 0 < 100)]
      have hpos : 0 < p * L.length :=
        Nat.mul_pos (by omega) (Nat.pos_of_ne_zero hL)
      omega
    congr 1
    omega

/-- Claim C2: for every latency list `L` and every `p ∈ {50, 95, 99}`, the
aggregator's `percentile` equals the specification's clamped ceiling-rank
selection (`L[ceil(p/100 × len(L)) − 1]` with the index clamped to
`[0, len(L)−1]`, `0` on empty `L`); in particular on `[10,20,30,40,50]` it
yields p50 = 30, p95 = 50 and p99 = 50. -/
theorem percentile_matches_spec :
    (∀ L : List Nat, percentile L 50 = specPercentile L 50 ∧
      percentile L 95 = specPercentile L 95 ∧
      percentile L 99 = specPercentile L 99) ∧
    percentile [10, 20, 30, 40, 50] 50 = 30 ∧
    percentile [10, 20, 30, 40, 50] 95 = 50 ∧
    percentile [10, 20, 30, 40, 50] 99 = 50 := by
  refine ⟨fun L => ⟨?_, ?_, ?_⟩, by decide, by decide, by decide⟩ <;>
    exact percentile_eq_specPercentile L _ (by norm_num) (by norm_num)

/-- Claim C1, counterexample: a 404 response makes `executeEndpointRequest`
raise (axios's default `validateStatus` is never overridden), and the worker
loop counts that iteration as failed, not successful — refuting the claim that
a 4xx/5xx response is counted as a successful `RequestOutcome`. -/
theorem non2xx_counted_as_failure :
    executeEndpointRequest sampleEndpoint (.response 404) = .error () ∧
    (loopIter sampleEndpoint ⟨.response 404, 5⟩ initialLoopState).failedRequests
      = 1 ∧
    (loopIter sampleEndpoint ⟨.response 404, 5⟩
      initialLoopState).successfulRequests = 0 :=
  ⟨rfl, rfl, rfl⟩

/-- Claim C1 (amended): `executeEndpointRequest` returns normally exactly on a
2xx response (axios's default `validateStatus`); a non-2xx response and a
transport failure both raise, and the worker loop counts a raising iteration
as failed and a returning iteration as successful with its latency. -/
theorem executeEndpointRequest_status_handling (e : ApiEndpoint) (s : Nat) :
    (200 ≤ s → s < 300 → executeEndpointRequest e (.response s) = .ok s) ∧
    (s < 200 ∨ 300 ≤ s → executeEndpointRequest e (.response s) = .error ()) ∧
    executeEndpointRequest e .failure = .error () ∧
    (∀ (it : Iteration) (st : LoopState),
      executeEndpointRequest e it.transport = .error () →
        loopIter e it st =
          { st with
            totalRequests := st.totalRequests + 1
            failedRequests := st.failedRequests + 1 }) ∧
    (∀ (it : Iteration) (st : LoopState),
      (∃ v, executeEndpointRequest e it.transport = .ok v) →
        loopIter e it st =
          { st with
            responseTimes := st.responseTimes ++ [it.elapsedMs]
            totalRequests := st.totalRequests + 1
            successfulRequests := st.successfulRequests + 1 }) := by
  refine ⟨?_, ?_, rfl, ?_, ?_⟩
  · intro h1 h2
    simp [executeEndpointRequest, axiosSend, buildRequestConfig,
      defaultValidateStatus, h1, h2]
  · intro h
    have hns : ¬(200 ≤ s ∧ s < 300) := by omega
    simp only [executeEndpointRequest, axiosSend, buildRequestConfig,
      defaultValidateStatus, Option.getD_none, Bool.and_eq_true,
      decide_eq_true_eq]
    rw [if_neg hns]
  · intro it st h
    unfold loopIter
    rw [h]
  · intro it st h
    obtain ⟨v, hv⟩ := h
    unfold loopIter
    rw [hv]

/-- Witness for the amended C1 at concrete inputs: a 204 response returns
normally, a 500 response raises, and the 500 iteration is counted as failed. -/
theorem executeEndpointRequest_status_handling_witness :
    executeEndpointRequest sampleEndpoint (.response 204) = .ok 204 ∧
    executeEndpointRequest sampleEndpoint (.response 500) = .error () ∧
    loopIter sampleEndpoint ⟨.response 500, 7⟩ initialLoopState =
      { initialLoopState with totalRequests := 1, failedRequests := 1 } := by
  refine
    ⟨(executeEndpointRequest_status_handling sampleEndpoint 204).1 (by norm_num)
      (by norm_num),
    (executeEndpointRequest_status_handling sampleEndpoint 500).2.1
      (Or.inr (by norm_num)),
    (executeEndpointRequest_status_handling sampleEndpoint 500).2.2.2.1
      ⟨.response 500, 7⟩ initialLoopState ?_⟩
  exact (executeEndpointRequest_status_handling sampleEndpoint 500).2.1
    (Or.inr (by norm_num))

theorem executeLoadTest_totalRequests (e : ApiEndpoint) (cfg : TestConfig)
    (t : Nat) (schedule : List (List Iteration)) :
    (executeLoadTest e cfg t schedule).totalRequests =
      (loadTestState e cfg t schedule).totalRequests := rfl

theorem executeLoadTest_successfulRequests (e : ApiEndpoint) (cfg : TestConfig)
    (t : Nat) (schedule : List (List Iteration)) :
    (executeLoadTest e cfg t schedule).successfulRequests =
      (loadTestState e cfg t schedule).successfulRequests := rfl

theorem executeLoadTest_failedRequests (e : ApiEndpoint) (cfg : TestConfig)
    (t : Nat) (schedule : List (List Iteration)) :
    (executeLoadTest e cfg t schedule).failedRequests =
      (loadTestState e cfg t schedule).failedRequests := rfl

theorem executeLoadTest_errorRate_def (e : ApiEndpoint) (cfg : TestConfig)
    (t : Nat) (schedule : List (List Iteration)) :
    (executeLoadTest e cfg t schedule).errorRate =
      (if (loadTestState e cfg t schedule).totalRequests = 0 then (0 : ℚ)
       else ((loadTestState e cfg t schedule).failedRequests : ℚ) /
          ((loadTestState e cfg t schedule).totalRequests : ℚ) * 100) := rfl

/-- Claim C5: with zero successful requests the aggregator returns 0 for the
average, min, max and all three percentiles; no division by zero or
out-of-bounds access occurs (the functions are total), and these metrics are
computed from the successful-request latencies alone. -/
theorem executeLoadTest_zero_success_metrics (e : ApiEndpoint)
    (cfg : TestConfig) (t : Nat) (schedule : List (List Iteration))
    (h : (executeLoadTest e cfg t schedule).successfulRequests = 0) :
    (executeLoadTest e cfg t schedule).averageResponseTime = 0 ∧
    (executeLoadTest e cfg t schedule).minResponseTime = 0 ∧
    (executeLoadTest e cfg t schedule).maxResponseTime = 0 ∧
    (executeLoadTest e cfg t schedule).percentiles.p50 = 0 ∧
    (executeLoadTest e cfg t schedule).percentiles.p95 = 0 ∧
    (executeLoadTest e cfg t schedule).percentiles.p99 = 0 := by
  have hinv := loadTestState_inv e cfg t schedule
  have hnil : (loadTestState e cfg t schedule).responseTimes = [] := by
    have hlen : (loadTestState e cfg t schedule).responseTimes.length = 0 := by
      rw [hinv.2]
      exact h
    exact List.length_eq_zero.mp hlen
  have hsorted : sortedTimes (loadTestState e cfg t schedule) = [] := by
    simp [sortedTimes, hnil]
  refine ⟨?_, ?_, ?_, ?_, ?_, ?_⟩ <;>
    simp [executeLoadTest, computeResults, hnil, hsorted, percentile]

/-- Witness for C5: a run whose schedule delivers no iterations has zero
successes, and all latency-derived metrics are 0. -/
theorem executeLoadTest_zero_success_metrics_witness :
    (executeLoadTest sampleEndpoint ⟨1, 1, 0⟩ 0 []).averageResponseTime = 0 ∧
    (executeLoadTest sampleEndpoint ⟨1, 1, 0⟩ 0 []).minResponseTime = 0 ∧
    (executeLoadTest sampleEndpoint ⟨1, 1, 0⟩ 0 []).maxResponseTime = 0 ∧
    (executeLoadTest sampleEndpoint ⟨1, 1, 0⟩ 0 []).percentiles.p50 = 0 ∧
    (executeLoadTest sampleEndpoint ⟨1, 1, 0⟩ 0 []).percentiles.p95 = 0 ∧
    (executeLoadTest sampleEndpoint ⟨1, 1, 0⟩ 0 []).percentiles.p99 = 0 :=
  executeLoadTest_zero_success_metrics sampleEndpoint ⟨1, 1, 0⟩ 0 [] rfl

/-- Claim C6: the error rate is `(failedRequests / totalRequests) × 100`, `0`
when `totalRequests = 0`, and always lies between 0 and 100. -/
theorem executeLoadTest_errorRate_bounds (e : ApiEndpoint) (cfg : TestConfig)
    (t : Nat) (schedule : List (List Iteration)) :
    ((executeLoadTest e cfg t schedule).totalRequests = 0 →
      (executeLoadTest e cfg t schedule).errorRate = 0) ∧
    0 ≤ (executeLoadTest e cfg t schedule).errorRate ∧
    (executeLoadTest e cfg t schedule).errorRate ≤ 100 ∧
    (executeLoadTest e cfg t schedule).errorRate =
      (if (executeLoadTest e cfg t schedule).totalRequests = 0 then (0 : ℚ)
       else ((executeLoadTest e cfg t schedule).failedRequests : ℚ) /
          ((executeLoadTest e cfg t schedule).totalRequests : ℚ) * 100) := by
  have hinv := loadTestState_inv e cfg t schedule
  rw [executeLoadTest_errorRate_def, executeLoadTest_totalRequests,
    executeLoadTest_failedRequests]
  by_cases h0 : (loadTestState e cfg t schedule).totalRequests = 0
  · simp [h0]
  · have hle : (loadTestState e cfg t schedule).failedRequests ≤
        (loadTestState e cfg t schedule).totalRequests := by
      have := hinv.1
      omega
    have htpos : (0 : ℚ) < ((loadTestState e cfg t schedule).totalRequests : ℚ) := by
      exact_mod_cast Nat.pos_of_ne_zero h0
    have hdiv : ((loadTestState e cfg t schedule).failedRequests : ℚ) /
        ((loadTestState e cfg t schedule).totalRequests : ℚ) ≤ 1 :=
      (div_le_one htpos).mpr (by exact_mod_cast hle)
    refine ⟨fun hc => absurd hc h0, ?_, ?_, rfl⟩
    · rw [if_neg h0]
      positivity
    · rw [if_neg h0]
      calc ((loadTestState e cfg t schedule).failedRequests : ℚ) /
            ((loadTestState e cfg t schedule).totalRequests : ℚ) * 100
          ≤ 1 * 100 := by
            exact mul_le_mul_of_nonneg_right hdiv (by norm_num)
        _ = 100 := by norm_num

/-- Witness for C6: a run with no iterations has zero total requests and error
rate 0. -/
theorem executeLoadTest_errorRate_bounds_witness :
    (executeLoadTest sampleEndpoint ⟨1, 1, 0⟩ 0 []).errorRate = 0 :=
  (executeLoadTest_errorRate_bounds sampleEndpoint ⟨1, 1, 0⟩ 0 []).1 rfl

theorem workerLoop_shift (e : ApiEndpoint) (its : List Iteration) :
    ∀ (δ a b : Nat) (st : LoopState),
      workerLoop e (δ + a) (δ + b) its st = workerLoop e a b its st := by
  induction its with
  | nil => intro δ a b st; rfl
  | cons it rest ih =>
      intro δ a b st
      simp only [workerLoop]
      by_cases h : b < a
      · rw [if_pos (Nat.add_lt_add_left h δ), if_pos h]
        have harg : δ + b + it.elapsedMs + 100 = δ + (b + it.elapsedMs + 100) := by
          omega
        rw [harg]
        exact ih δ a (b + it.elapsedMs + 100) (loopIter e it st)
      · rw [if_neg (fun hc => h (Nat.lt_of_add_lt_add_left hc)), if_neg h]

theorem loadTestState_startTime_irrelevant (e : ApiEndpoint) (cfg : TestConfig)
    (t1 t2 : Nat) (schedule : List (List Iteration)) :
    loadTestState e cfg t1 schedule = loadTestState e cfg t2 schedule := by
  unfold loadTestState
  have hw : ∀ (t : Nat) (w : List Iteration) (s : LoopState),
      workerLoop e (t + cfg.duration * 1000) t w s =
        workerLoop e (cfg.duration * 1000) 0 w s := by
    intro t w s
    have h := workerLoop_shift e w t (cfg.duration * 1000) 0 s
    calc workerLoop e (t + cfg.duration * 1000) t w s
        = workerLoop e (t + cfg.duration * 1000) (t + 0) w s := by
          rw [Nat.add_zero]
      _ = workerLoop e (cfg.duration * 1000) 0 w s := h
  have hfun : (fun s w => workerLoop e (t1 + cfg.duration * 1000) t1 w s) =
      fun s w => workerLoop e (t2 + cfg.duration * 1000) t2 w s := by
    funext s w
    rw [hw t1 w s, hw t2 w s]
  rw [hfun]

/-- Claim C7: `requestsPerSecond` is `totalRequests` divided by the configured
`duration`, and the measured wall-clock start time has no influence at all —
two runs whose environments agree but start at different clock values produce
identical results. -/
theorem executeLoadTest_rps_configured_duration (e : ApiEndpoint)
    (cfg : TestConfig) (t : Nat) (schedule : List (List Iteration)) :
    (executeLoadTest e cfg t schedule).requestsPerSecond =
      ((executeLoadTest e cfg t schedule).totalRequests : ℚ) /
        (cfg.duration : ℚ) ∧
    ∀ t2 : Nat,
      executeLoadTest e cfg t schedule = executeLoadTest e cfg t2 schedule := by
  constructor
  · rfl
  · intro t2
    unfold executeLoadTest
    rw [loadTestState_startTime_irrelevant e cfg t t2 schedule]

/-- Claim C8: `rampUpTime` has no behavioral effect — two configurations that
agree on `concurrentUsers` and `duration` but differ in `rampUpTime` yield
identical `executeLoadTest` results on every environment. -/
theorem executeLoadTest_rampUpTime_irrelevant (e : ApiEndpoint)
    (c1 c2 : TestConfig) (t : Nat) (schedule : List (List Iteration))
    (hu : c1.concurrentUsers = c2.concurrentUsers)
    (hd : c1.duration = c2.duration) :
    executeLoadTest e c1 t schedule = executeLoadTest e c2 t schedule := by
  obtain ⟨u1, d1, r1⟩ := c1
  obtain ⟨u2, d2, r2⟩ := c2
  simp only at hu hd
  subst hu
  subst hd
  rfl

/-- Witness for C8: two concrete configs differing only in `rampUpTime` give
equal results. -/
theorem executeLoadTest_rampUpTime_irrelevant_witness :
    executeLoadTest sampleEndpoint ⟨2, 1, 0⟩ 0
        [[⟨.response 200, 5⟩], [⟨.failure, 3⟩]] =
      executeLoadTest sampleEndpoint ⟨2, 1, 7⟩ 0
        [[⟨.response 200, 5⟩], [⟨.failure, 3⟩]] :=
  executeLoadTest_rampUpTime_irrelevant sampleEndpoint ⟨2, 1, 0⟩ ⟨2, 1, 7⟩ 0
    [[⟨.response 200, 5⟩], [⟨.failure, 3⟩]] rfl rfl

/-- Claim C4: the coordinator creates the record in status `running`
(no completion time, no results) and persists exactly one transition: to
`completed` with results and `completedAt` on normal return of the load test,
or to `failed` with `completedAt` and no results on a raised error, which is
re-raised to the caller. -/
theorem runPerformanceTest_lifecycle (e : ApiEndpoint) (pid : String)
    (cfg : TestConfig) (t1 t2 : Nat) (out : Except String TestResults) :
    ∃ rec0 rec1 : TestRecord,
      (runPerformanceTest e pid cfg t1 t2 out).1 = [rec0, rec1] ∧
      rec0.status = .running ∧ rec0.completedAt = none ∧ rec0.results = none ∧
      rec0.startedAt = t1 ∧ rec1.startedAt = t1 ∧
      rec1.completedAt = some t2 ∧
      ((∃ res, out = .ok res ∧ rec1.status = .completed ∧
          rec1.results = some res ∧
          (runPerformanceTest e pid cfg t1 t2 out).2 = .ok rec1) ∨
        (∃ err, out = .error err ∧ rec1.status = .failed ∧
          rec1.results = none ∧
          (runPerformanceTest e pid cfg t1 t2 out).2 = .error err)) := by
  rcases out with err | res
  · exact ⟨_, _, rfl, rfl, rfl, rfl, rfl, rfl, rfl,
      Or.inr ⟨err, rfl, rfl, rfl, rfl⟩⟩
  · exact ⟨_, _, rfl, rfl, rfl, rfl, rfl, rfl, rfl,
      Or.inl ⟨res, rfl, rfl, rfl, rfl⟩⟩

/-- Claim C9: the history query returns only the project's persisted records,
sorted by `startedAt` descending, capped at 50. -/
theorem getTestHistory_sorted_capped (store : List TestRecord) (pid : String) :
    (getTestHistory store pid).length ≤ 50 ∧
    List.Pairwise (fun a b => b.startedAt ≤ a.startedAt)
      (getTestHistory store pid) ∧
    ∀ r ∈ getTestHistory store pid, r ∈ store ∧ r.projectId = pid := by
  refine ⟨?_, ?_, ?_⟩
  · exact List.length_take_le 50 _
  · have htrans : ∀ a b c : TestRecord, startedAtDesc a b = true →
        startedAtDesc b c = true → startedAtDesc a c = true := by
      intro a b c hab hbc
      simp only [startedAtDesc, decide_eq_true_eq] at hab hbc ⊢
      omega
    have htotal : ∀ a b : TestRecord,
        (startedAtDesc a b || startedAtDesc b a) = true := by
      intro a b
      simp only [startedAtDesc, Bool.or_eq_true, decide_eq_true_eq]
      omega
    have hs := List.sorted_mergeSort htrans htotal
      (store.filter fun r => r.projectId == pid)
    have hp : List.Pairwise (fun a b : TestRecord => b.startedAt ≤ a.startedAt)
        ((store.filter fun r => r.projectId == pid).mergeSort startedAtDesc) := by
      refine hs.imp ?_
      intro a b hab
      simpa [startedAtDesc] using hab
    exact hp.sublist (List.take_sublist 50 _)
  · intro r hr
    have h1 : r ∈ (store.filter fun x => x.projectId == pid).mergeSort
        startedAtDesc := List.mem_of_mem_take hr
    have h2 : r ∈ store.filter fun x => x.projectId == pid :=
      (List.mergeSort_perm _ _).mem_iff.mp h1
    have h3 := List.mem_filter.mp h2
    refine ⟨h3.1, ?_⟩
    simpa using h3.2

/-- A sample persisted record used for concrete witnesses. -/
def sampleRecord : TestRecord :=
  { projectId := "p1"
    endpointId := "ep1"
    testName := "t"
    config := ⟨1, 1, 0⟩
    status := .running
    startedAt := 3 }

/-- Witness for C9: on a one-record store the query returns that record, which
belongs to the store and to the requested project. -/
theorem getTestHistory_sorted_capped_witness :
    sampleRecord ∈ [sampleRecord] ∧ sampleRecord.projectId = "p1" := by
  have hq : getTestHistory [sampleRecord] "p1" = [sampleRecord] := by
    simp [getTestHistory, sampleRecord]
  exact (getTestHistory_sorted_capped [sampleRecord] "p1").2.2 sampleRecord
    (by rw [hq]; exact List.mem_singleton.mpr rfl)

/-- Claim C10: the controller replaces falsy supplied configuration values by
the defaults before invoking the engine: a missing or zero `concurrentUsers`
becomes 10, a missing or zero `duration` becomes 60, a missing or zero
`rampUpTime` becomes 0; hence a run can never start with zero workers or zero
duration, and an explicit 0 cannot be requested (a nonzero value passes
through). -/
theorem controllerTestConfig_defaults (cu du ru : Option Nat) :
    (controllerTestConfig cu du ru).concurrentUsers ≠ 0 ∧
    (controllerTestConfig cu du ru).duration ≠ 0 ∧
    ((cu = none ∨ cu = some 0) →
      (controllerTestConfig cu du ru).concurrentUsers = 10) ∧
    ((du = none ∨ du = some 0) →
      (controllerTestConfig cu du ru).duration = 60) ∧
    ((ru = none ∨ ru = some 0) →
      (controllerTestConfig cu du ru).rampUpTime = 0) ∧
    (∀ n, n ≠ 0 → (controllerTestConfig (some n) du ru).concurrentUsers = n) ∧
    (∀ n, n ≠ 0 → (controllerTestConfig cu (some n) ru).duration = n) ∧
    (∀ n, n ≠ 0 → (controllerTestConfig cu du (some n)).rampUpTime = n) := by
  have hne : ∀ (v : Option Nat) (d : Nat), d ≠ 0 → jsOrNat v d ≠ 0 := by
    intro v d hd
    cases v with
    | none => exact hd
    | some n =>
        by_cases hn : n = 0
        · subst hn
          exact hd
        · simp only [jsOrNat, if_neg hn]
          exact hn
  have hdef : ∀ (v : Option Nat) (d : Nat), (v = none ∨ v = some 0) →
      jsOrNat v d = d := by
    intro v d hv
    rcases hv with hv | hv <;> simp [hv, jsOrNat]
  have hpass : ∀ (n d : Nat), n ≠ 0 → jsOrNat (some n) d = n := by
    intro n d hn
    simp [jsOrNat, hn]
  exact ⟨hne cu 10 (by norm_num), hne du 60 (by norm_num),
    fun h => hdef cu 10 h, fun h => hdef du 60 h, fun h => hdef ru 0 h,
    fun n hn => hpass n 10 hn, fun n hn => hpass n 60 hn,
    fun n hn => hpass n 0 hn⟩

/-- Witness for C10: a supplied 0 for `concurrentUsers`, a missing `duration`
and an explicit nonzero `rampUpTime` yield 10, 60 and the supplied value. -/
theorem controllerTestConfig_defaults_witness :
    (controllerTestConfig (some 0) none (some 7)).concurrentUsers = 10 ∧
    (controllerTestConfig (some 0) none (some 7)).duration = 60 ∧
    (controllerTestConfig (some 0) none (some 7)).rampUpTime = 7 :=
  ⟨(controllerTestConfig_defaults (some 0) none (some 7)).2.2.1 (Or.inr rfl),
    (controllerTestConfig_defaults (some 0) none (some 7)).2.2.2.1
      (Or.inl rfl),
    (controllerTestConfig_defaults (some 0) none (some 7)).2.2.2.2.2.2.2 7
      (by norm_num)⟩

end ApiTesterBE
